import Mathlib

/-!
Verification of the stock-change detection pipeline of the shein-verse-bot
repository (src/bot.py, src/shein_client.py, src/telegram_manager.py),
as a shallow embedding in Lean 4.

Python strings are modelled as Lean `String`; Python dicts keyed by strings
as association lists; random draws (`random.random()`, `random.randint`)
are passed in explicitly as parameters, so that dependence of a result on a
draw is visible in the type; the external hash `hashlib.md5(...).hexdigest()`
is a fixed pure function and is passed in as a parameter `md5hex`.
Network and timestamp effects are outside every claim considered here and
are omitted from the record shapes.
-/

/-! ## Python string primitives -/

/-- Python truthiness on an optional string attribute: `None` and the empty
string are falsy. -/
def pyTruthy (o : Option String) : Option String :=
  match o with
  | some s => if s = "" then none else some s
  | none => none

/-- Python `a or b` on two optional string attributes. -/
def pyOr2 (a b : Option String) : Option String :=
  match pyTruthy a with
  | some s => some s
  | none => pyTruthy b

/-- Python `needle in hay` substring test. -/
def pyIn (needle hay : String) : Bool :=
  hay.data.tails.any (fun t => needle.data.isPrefixOf t)

/-- Python `s.startswith(pre)`. -/
def pyStartswith (s pre : String) : Bool :=
  pre.data.isPrefixOf s.data

/-- Python `s.lower()` (ASCII model). -/
def pyLower (s : String) : String :=
  String.mk (s.data.map Char.toLower)

/-- Python slice `s[:n]` on a string. -/
def pySlice (s : String) (n : Nat) : String :=
  String.mk (s.data.take n)

/-- Numeric value of a digit string, as computed by Python `int` on a
string that passed `str.isdigit`. -/
def natOfDigits (cs : List Char) : Nat :=
  cs.foldl (fun n c => n * 10 + (c.toNat - 48)) 0

/-! ## bot.py: the METHOD 1 keyword classifier (bot.py lines 152-185) -/

/-- Men keyword list, bot.py lines 156-160 (the source lists `shirt` twice). -/
def men_keywords : List String :=
  ["men", "man", "male", "boys", "guy",
   "track", "cargo", "jeans", "tshirt", "shirt",
   "hoodie", "jacket", "sweatshirt", "pants",
   "shorts", "sweater", "blazer", "sweatpants",
   "joggers", "trousers", "shirt", "poloshirt"]

/-- Women keyword list, bot.py lines 163-166. -/
def women_keywords : List String :=
  ["women", "woman", "female", "girls", "ladies",
   "dress", "skirt", "top", "blouse", "leggings",
   "jumpsuit", "romper", "kimono", "crop top",
   "playsuit", "cardigan", "tunic"]

/-- Gender assignment of bot.py METHOD 1 (lines 152-185): case-insensitive
keyword search in the name, men keywords first, then women keywords, then
URL segment hints, defaulting to women. -/
def classify_gender (product_name product_url : String) : String :=
  let name_lower := pyLower product_name
  if men_keywords.any (fun k => pyIn k name_lower) then "men"
  else if women_keywords.any (fun k => pyIn k name_lower) then "women"
  else if pyIn "/men-" product_url || pyIn "-men-" product_url then "men"
  else if pyIn "/women-" product_url || pyIn "-women-" product_url then "women"
  else "women"

/-! ## shein_client.py: the men filter (lines 354-371) -/

/-- Women keyword list of shein_client._is_men_product, line 359. -/
def client_women_keywords : List String :=
  ["women", "woman", "female", "girl", "lady", "ladies", "dress", "skirt", "bra"]

/-- Men keyword list of shein_client._is_men_product, line 365. -/
def client_men_keywords : List String :=
  ["men", "man", "male", "boy", "guy", "unisex"]

/-- shein_client._is_men_product (lines 354-371): women keywords are tested
first and any hit excludes the product; otherwise men keywords are tested;
otherwise default True. -/
def _is_men_product (name : String) : Bool :=
  let n := pyLower name
  if client_women_keywords.any (fun k => pyIn k n) then false
  else if client_men_keywords.any (fun k => pyIn k n) then true
  else true

/-! ## bot.py METHOD 3: gender by random draw (bot.py lines 271-278)

`random.random()` returns a rational in the unit interval; the draw is an
explicit argument here. -/

/-- Gender assignment of bot.py METHOD 3 (line 273): `men` exactly when the
draw of `random.random()` is below 0.3, independent of name and URL. -/
def method3_gender (r : ℚ) : String :=
  if r < 3 / 10 then "men" else "women"

/-! ## bot.py extraction methods (extract_shein_verse_products, lines 99-302) -/

/-- Canonical record built by bot.py's extraction methods (the `product`
dict of bot.py; the `time` field, a wall-clock timestamp, is omitted). -/
structure BotProduct where
  id : String
  name : String
  price : String
  url : String
  image : String
  gender : String
  source : String
deriving DecidableEq

/-- Model of `urljoin` against the base `https://www.shein.in` as used at
bot.py lines 129 and 266: absolute URLs pass through, scheme-relative URLs
get the https scheme, rooted and relative paths are joined to the host. -/
def urljoin_shein (href : String) : String :=
  if pyStartswith href "//" then "https:" ++ href
  else if pyStartswith href "http" then href
  else if pyStartswith href "/" then "https://www.shein.in" ++ href
  else "https://www.shein.in/" ++ href

/-- Leading run of digits and commas, the `[\d,]+` group of the price
pattern at bot.py line 146. -/
def priceDigits : List Char → List Char
  | [] => []
  | c :: cs => if c.isDigit || c = ',' then c :: priceDigits cs else []

/-- First position of the pattern at bot.py line 146: a rupee sign, optional
whitespace, then at least one digit or comma. -/
def findRupeeAmount : List Char → Option (List Char)
  | [] => none
  | c :: cs =>
    if c = '₹' then
      match priceDigits (cs.dropWhile Char.isWhitespace) with
      | [] => findRupeeAmount cs
      | ds => some ds
    else findRupeeAmount cs

/-- Price cleaning of bot.py lines 146-147: the first rupee amount matched
in the raw text, with the sentinel text when no amount matches. -/
def clean_price (price_text : String) : String :=
  match findRupeeAmount price_text.data with
  | some ds => "₹" ++ String.mk ds
  | none => "₹---"

/-- Id generation at bot.py line 150 (METHOD 1): the first ten characters of
the md5 hex digest of the product URL. -/
def product_id_m1 (md5hex : String → String) (product_url : String) : String :=
  pySlice (md5hex product_url) 10

/-- Id generation at bot.py line 270 (METHOD 3): the first ten characters of
the md5 hex digest of the product URL. -/
def product_id_m3 (md5hex : String → String) (product_url : String) : String :=
  pySlice (md5hex product_url) 10

/-- One product container element as seen by bot.py METHOD 1 (lines 122-143):
the first link href, the first image src, the text of a name-like element and
of a price-like element, each possibly absent. -/
structure HtmlItem where
  href : Option String
  imgSrc : Option String
  nameText : Option String
  priceText : Option String
deriving DecidableEq

/-- Body of the METHOD 1 item loop (bot.py lines 122-198): items without a
link are skipped, missing sub-elements fall back to placeholder text, the id
is the truncated md5 of the URL, gender comes from the keyword classifier. -/
def parse_item (md5hex : String → String) (it : HtmlItem) : Option BotProduct :=
  match it.href with
  | none => none
  | some href =>
    let product_url := urljoin_shein href
    let image_url0 := it.imgSrc.getD ""
    let image_url :=
      if pyStartswith image_url0 "//" then "https:" ++ image_url0 else image_url0
    let product_name := it.nameText.getD "SHEIN VERSE Product"
    let price_text := it.priceText.getD "₹---"
    some { id := product_id_m1 md5hex product_url
           name := pySlice product_name 100
           price := clean_price price_text
           url := product_url
           image := image_url
           gender := classify_gender product_name product_url
           source := "shein_verse" }

/-- bot.py METHOD 1 (lines 108-204): every container element found by the
first matching selector is processed; there is no cap on the number of
emitted records. -/
def extract_method1 (md5hex : String → String) (items : List HtmlItem) : List BotProduct :=
  items.filterMap (parse_item md5hex)

/-- One entry of the embedded `goodsList` JSON array read by bot.py METHOD 2
(lines 220-228); `item.get(key, default)` is modelled by optional fields. -/
structure JsonItem where
  goods_id : Option String
  goods_name : Option String
  price : Option String
  goods_img : Option String
  cat_name : Option String
deriving DecidableEq

/-- The product URL built by bot.py METHOD 2 at line 225 from the native
goods id. -/
def method2_url (goods_id : String) : String :=
  "https://www.shein.in/p-" ++ goods_id ++ ".html"

/-- Body of the METHOD 2 loop (bot.py lines 220-247). -/
def parse_json_item (it : JsonItem) : BotProduct :=
  let goods_id := it.goods_id.getD ""
  let cat_name := pyLower (it.cat_name.getD "")
  { id := goods_id
    name := it.goods_name.getD "SHEIN VERSE Product"
    price := "₹" ++ it.price.getD "---"
    url := method2_url goods_id
    image := it.goods_img.getD ""
    gender := if pyIn "men" cat_name then "men" else "women"
    source := "shein_verse_json" }

/-- bot.py METHOD 2 (lines 206-253): the first thirty entries of the parsed
`goodsList` array are mapped to records. -/
def extract_method2 (items : List JsonItem) : List BotProduct :=
  (items.take 30).map parse_json_item

/-- One tuple produced by the METHOD 3 regex (bot.py line 260): href group,
protocol-relative image group, raw name group. -/
structure RegexMatch where
  href : String
  img : String
  rawName : String
deriving DecidableEq

/-- Body of the METHOD 3 loop (bot.py lines 264-291); the draw of
`random.random()` at line 273 is the explicit argument `r`. -/
def parse_method3_match (md5hex : String → String) (m : RegexMatch) (r : ℚ) : BotProduct :=
  let product_url := urljoin_shein m.href
  { id := product_id_m3 md5hex product_url
    name := m.rawName.trim
    price := "₹---"
    url := product_url
    image := "https:" ++ m.img
    gender := method3_gender r
    source := "regex_fallback" }

/-- bot.py METHOD 3 (lines 255-294): the first thirty regex matches are
mapped to records; the i-th iteration consumes the i-th random draw. -/
def extract_method3 (md5hex : String → String) (found : List RegexMatch)
    (rands : Nat → ℚ) : List BotProduct :=
  (found.take 30).enum.map (fun p => parse_method3_match md5hex p.2 (rands p.1))

/-- The except-branch of extract_shein_verse_products (bot.py lines 299-302):
on any extraction error the function returns no records together with the
hard-coded estimated counts 28 men and 129 women. -/
def extract_error_fallback : List BotProduct × Nat × Nat :=
  ([], 28, 129)

/-! ## shein_client.py: _extract_product_info (lines 304-352) -/

/-- The img sub-element of a product container, when present: its `src` and
`data-src` attributes. -/
structure ImgElem where
  src : Option String
  dataSrc : Option String
deriving DecidableEq

/-- One product container element as seen by shein_client (lines 304-336).
`linkHref` is the `a` sub-element when present, carrying its optional href
attribute; `reprHasNew` records whether the text `new` occurs in the string
rendering of the element (line 345). -/
structure ClientElem where
  dataProductId : Option String
  dataGoodsId : Option String
  nameText : Option String
  priceText : Option String
  imgElem : Option ImgElem
  linkHref : Option (Option String)
  reprHasNew : Bool
deriving DecidableEq

/-- The dict built by shein_client._extract_product_info (lines 338-348);
`original_price` is the constant empty string and `category` the constant
text Men, and the timestamp is omitted. A missing img sub-element makes the
attribute access at line 326 raise, so the function returns None. -/
structure ClientProduct where
  id : String
  name : String
  price : String
  url : Option String
  image : String
  is_new : Bool
deriving DecidableEq

/-- shein_client._extract_product_info (lines 304-352). The id at lines
308-310 is the first truthy one of the two data attributes, falling back to
the draw of `random.randint(1000000, 9999999)` passed as `rand`; the price
is stripped to digits and dots (line 322); a missing img sub-element yields
None through the except branch. -/
def _extract_product_info (e : ClientElem) (rand : Nat) : Option ClientProduct :=
  let product_id :=
    match pyOr2 e.dataProductId e.dataGoodsId with
    | some s => s
    | none => toString rand
  let name := e.nameText.getD "Unknown Product"
  let price := String.mk ((e.priceText.getD "₹0").data.filter (fun c => c.isDigit || c = '.'))
  match e.imgElem with
  | none => none
  | some im =>
    let image_url0 := (pyOr2 im.src im.dataSrc).getD ""
    let image_url :=
      if image_url0 ≠ "" ∧ ¬ pyStartswith image_url0 "http"
      then "https:" ++ image_url0 else image_url0
    let href : Option String :=
      match e.linkHref with
      | none => some ""
      | some a => a
    let product_url : Option String :=
      match href with
      | none => none
      | some s =>
        if s ≠ "" ∧ ¬ pyStartswith s "http"
        then some ("https://www.shein.in" ++ s) else some s
    some { id := product_id
           name := pySlice name 100
           price := price
           url := product_url
           image := image_url
           is_new := e.reprHasNew }

/-- shein_client._parse_html_products (lines 272-302): at most thirty items
of the first matching selector are processed, elements whose extraction fails
are skipped, and only products passing the men filter are kept. The i-th
iteration consumes the i-th random draw. -/
def _parse_html_products (items : List ClientElem) (rands : Nat → Nat) : List ClientProduct :=
  (items.take 30).enum.filterMap (fun p =>
    match _extract_product_info p.2 (rands p.1) with
    | none => none
    | some product => if _is_men_product product.name then some product else none)

/-! ## shein_client.py: _parse_sizes (lines 399-439) -/

/-- One size element of a product page as read by _parse_sizes: its stripped
text, its class list, whether the text out-of-stock occurs in its string
rendering, its `disabled` attribute, and its two stock attributes. -/
structure SizeElem where
  text : String
  classes : List String
  reprHasOutOfStock : Bool
  disabledAttr : Option String
  dataStock : Option String
  dataQuantity : Option String
deriving DecidableEq

/-- The availability test at shein_client lines 416-421. -/
def size_is_disabled (e : SizeElem) : Bool :=
  e.classes.contains "disabled" || e.classes.contains "sold-out" ||
  e.reprHasOutOfStock || e.disabledAttr == some "disabled"

/-- The quantity computed at shein_client lines 425-426: the integer value of
the first truthy stock attribute when it is all digits, otherwise 1. -/
def size_quantity (e : SizeElem) : Nat :=
  match pyOr2 e.dataStock e.dataQuantity with
  | some s => if s.data.all Char.isDigit then natOfDigits s.data else 1
  | none => 1

/-- Python dict assignment `sizes[k] = v`: overwrite the existing entry or
append a new one. -/
def dictSet (l : List (String × Nat)) (k : String) (v : Nat) : List (String × Nat) :=
  if l.any (fun e => e.1 = k) then l.map (fun e => if e.1 = k then (k, v) else e)
  else l ++ [(k, v)]

/-- Body of the _parse_sizes element loop (shein_client lines 412-428):
elements with empty or overlong text are skipped, disabled elements are
skipped, the rest are recorded with their computed quantity. -/
def parse_sizes_step (acc : List (String × Nat)) (e : SizeElem) : List (String × Nat) :=
  if e.text ≠ "" ∧ e.text.length < 10 then
    if size_is_disabled e = false then dictSet acc e.text (size_quantity e) else acc
  else acc

/-- shein_client._parse_sizes (lines 399-439). When no size element yields an
entry, the default dict of line 431-437 is returned, built from the four
draws of `random.randint` passed as `r1`-`r4`. -/
def _parse_sizes (elems : List SizeElem) (r1 r2 r3 r4 : Nat) : List (String × Nat) :=
  let sizes := elems.foldl parse_sizes_step []
  if sizes.isEmpty then [("S", r1), ("M", r2), ("L", r3), ("XL", r4)] else sizes

/-! ## Alert delivery

The two delivery operations are fallible external calls; their outcomes for
one dispatch are the Booleans `photoOk` and `textOk`. What a dispatch does
is recorded as the ordered list of attempted operations, the increment to
the alerts counter, and whether an exception propagates to the caller. -/

/-- One delivery operation of the messaging channel. -/
inductive Attempt where
  | photo
  | text
deriving DecidableEq

/-- Observable outcome of bot.py's send_telegram_alert. -/
structure AlertOutcome where
  attempts : List Attempt
  alertsInc : Nat
  raised : Bool
deriving DecidableEq

/-- bot.py send_telegram_alert (lines 304-350): with an image, the photo is
attempted first and a failure falls back to a text attempt (lines 322-337);
without an image only the text is attempted; the counter is incremented only
when a delivery succeeded; the outer except at line 349 catches every
delivery exception, so the function always returns normally and returns no
value. -/
def send_telegram_alert (hasImage photoOk textOk : Bool) : AlertOutcome :=
  if hasImage then
    if photoOk then ⟨[Attempt.photo], 1, false⟩
    else if textOk then ⟨[Attempt.photo, Attempt.text], 1, false⟩
    else ⟨[Attempt.photo, Attempt.text], 0, false⟩
  else
    if textOk then ⟨[Attempt.text], 1, false⟩
    else ⟨[Attempt.text], 0, false⟩

/-- Observable outcome of telegram_manager.send_product_alert: the ordered
attempts and the Boolean returned to the caller. -/
structure ProductAlertOutcome where
  attempts : List Attempt
  returned : Bool
deriving DecidableEq

/-- telegram_manager.send_product_alert (lines 71-120): the text message is
sent first (line 114); only when it succeeded and an image is present is the
photo sent (lines 117-118), its result discarded; the text result is
returned. -/
def send_product_alert (hasImage textOk : Bool) : ProductAlertOutcome :=
  if textOk then
    if hasImage then ⟨[Attempt.text, Attempt.photo], true⟩ else ⟨[Attempt.text], true⟩
  else ⟨[Attempt.text], false⟩

/-! ## bot.py change detection (check_shein_verse_stock, lines 401-441) -/

/-- The fields of an extracted product consulted by the per-product branch of
check_shein_verse_stock. -/
structure StepProduct where
  id : String
  gender : String
  hasImage : Bool
deriving DecidableEq

/-- The tracking dicts and counter of SheinVerseBot touched by one product
observation (dict keys modelled as lists of ids). -/
structure BotState where
  seen_products : List String
  men_products : List String
  women_products : List String
  alerts_sent : Nat
deriving DecidableEq

/-- Body of the per-product loop of check_shein_verse_stock (bot.py lines
419-436): an unseen men product gets one alert attempt (whose delivery
outcome is `photoOk`, `textOk`) and is then recorded in seen_products and
men_products; a seen men product falls into the pass branch at line 431; a
women product is only recorded. The returned Boolean is whether the product
was classified new (the alert branch was taken). -/
def check_product_step (s : BotState) (p : StepProduct) (photoOk textOk : Bool) :
    BotState × Bool :=
  if p.gender = "men" then
    if s.seen_products.contains p.id then (s, false)
    else
      let o := send_telegram_alert p.hasImage photoOk textOk
      ({ seen_products := p.id :: s.seen_products
         men_products := p.id :: s.men_products
         women_products := s.women_products
         alerts_sent := s.alerts_sent + o.alertsInc }, true)
  else if p.gender = "women" then
    if s.women_products.contains p.id then (s, false)
    else ({ s with women_products := p.id :: s.women_products }, false)
  else (s, false)

/-! ## Change-detection store with restock tracking

bot.py leaves the restock branch unimplemented (the pass at line 431), and
in the main.py pipeline the classification is delegated to
`database.check_product`, whose module is not part of the sources. The store
is therefore modelled from the spec. -/

namespace SpecStore

/-- Modelled from the spec: the canonical ProductRecord fields consulted by
the Change-Detection Store, spec section 3 (the missing module is
`database.py`, referenced from main.py). -/
structure ProductRecord where
  id : String
  sizeAvailability : List (String × Nat)
deriving DecidableEq

/-- Modelled from the spec: change classification, spec section 4.4. -/
inductive ChangeKind where
  | New
  | Restocked
  | Unchanged
deriving DecidableEq

/-- Modelled from the spec: TrackedState, spec section 3. -/
structure TrackedState where
  lastRecord : ProductRecord
  wasOutOfStock : Bool
deriving DecidableEq

/-- Total available quantity over all size entries of a record. -/
def totalAvailable (r : ProductRecord) : Nat :=
  (r.sizeAvailability.map (fun e => e.2)).sum

/-- Update the tracked entry of an id in place. -/
def setEntry (store : List (String × TrackedState)) (k : String) (v : TrackedState) :
    List (String × TrackedState) :=
  store.map (fun e => if e.1 = k then (k, v) else e)

/-- Modelled from the spec: `observe(record) -> ChangeKind` of the
Change-Detection Store, spec section 4.4 (implemented by the missing
`database.py`). An absent id is inserted and classified New; a present id
with `wasOutOfStock` set and positive current availability is classified
Restocked and the flag cleared; otherwise the observation is Unchanged and
the flag tracks whether the record is now out of stock. Every call updates
the stored record. -/
def observe (store : List (String × TrackedState)) (r : ProductRecord) :
    ChangeKind × List (String × TrackedState) :=
  match store.lookup r.id with
  | none =>
    (ChangeKind.New, (r.id, ⟨r, totalAvailable r == 0⟩) :: store)
  | some ts =>
    if ts.wasOutOfStock = true ∧ 0 < totalAvailable r then
      (ChangeKind.Restocked, setEntry store r.id ⟨r, false⟩)
    else
      (ChangeKind.Unchanged, setEntry store r.id ⟨r, totalAvailable r == 0⟩)

end SpecStore

/-! ## Size-mapping invariant lemmas -/

theorem dictSet_values (l : List (String × Nat)) (k : String) (v : Nat) (P : Nat → Prop)
    (hl : ∀ p ∈ l, P p.2) (hv : P v) : ∀ p ∈ dictSet l k v, P p.2 := by
  intro p hp
  unfold dictSet at hp
  split at hp
  · obtain ⟨q, hq, hpq⟩ := List.mem_map.mp hp
    by_cases hqk : q.1 = k
    · rw [if_pos hqk] at hpq
      rw [← hpq]
      exact hv
    · rw [if_neg hqk] at hpq
      rw [← hpq]
      exact hl q hq
  · rcases List.mem_append.mp hp with hmem | hmem
    · exact hl p hmem
    · rw [List.mem_singleton.mp hmem]
      exact hv

theorem parse_sizes_fold_values (elems : List SizeElem) (acc : List (String × Nat))
    (h : ∀ e ∈ elems, size_is_disabled e = false → 1 ≤ size_quantity e)
    (hacc : ∀ p ∈ acc, 1 ≤ p.2) :
    ∀ p ∈ elems.foldl parse_sizes_step acc, 1 ≤ p.2 := by
  induction elems generalizing acc with
  | nil => simpa using hacc
  | cons e t ih =>
    intro p hp
    rw [List.foldl_cons] at hp
    refine ih _ (fun x hx => h x (List.mem_cons_of_mem _ hx)) ?_ p hp
    intro q hq
    unfold parse_sizes_step at hq
    split at hq
    · split at hq
      · next hd =>
          exact dictSet_values acc e.text (size_quantity e) (fun n => 1 ≤ n) hacc
            (h e (List.mem_cons_self _ _) hd) q hq
      · exact hacc q hq
    · exact hacc q hq

theorem parse_sizes_step_disabled (acc : List (String × Nat)) (e : SizeElem)
    (hd : size_is_disabled e = true) : parse_sizes_step acc e = acc := by
  unfold parse_sizes_step
  split
  · rw [hd]
    simp
  · rfl

/-! ## Change-detection step lemmas -/

theorem check_product_step_after_new (s : BotState) (p q : StepProduct)
    (p1 t1 p2 t2 : Bool) (hnew : (check_product_step s p p1 t1).2 = true)
    (hid : q.id = p.id) :
    (check_product_step (check_product_step s p p1 t1).1 q p2 t2).2 = false := by
  unfold check_product_step at hnew ⊢
  by_cases hm : p.gender = "men"
  · rw [if_pos hm] at hnew ⊢
    by_cases hc : s.seen_products.contains p.id
    · rw [if_pos hc] at hnew
      simp at hnew
    · rw [if_neg hc] at hnew ⊢
      by_cases hqm : q.gender = "men"
      · rw [if_pos hqm]
        have : (p.id :: s.seen_products).contains q.id = true := by
          simp [hid]
        rw [if_pos this]
      · rw [if_neg hqm]
        by_cases hqw : q.gender = "women"
        · rw [if_pos hqw]
          split <;> rfl
        · rw [if_neg hqw]
  · rw [if_neg hm] at hnew
    by_cases hw : p.gender = "women"
    · rw [if_pos hw] at hnew
      split at hnew <;> simp at hnew
    · rw [if_neg hw] at hnew
      simp at hnew

/-! ## Helper lemmas -/

namespace SpecStore

theorem lookup_setEntry (store : List (String × TrackedState)) (k : String)
    (v : TrackedState) (h : (store.lookup k).isSome = true) :
    (setEntry store k v).lookup k = some v := by
  induction store with
  | nil => simp at h
  | cons e t ih =>
    obtain ⟨a, b⟩ := e
    by_cases he : a = k
    · subst he
      have hstep : setEntry ((a, b) :: t) a v = (a, v) :: setEntry t a v := by
        simp [setEntry]
      rw [hstep, List.lookup_cons]
      simp
    · have hstep : setEntry ((a, b) :: t) k v = (a, b) :: setEntry t k v := by
        simp [setEntry, he]
      have hne : (k == a) = false := by
        simp
        exact fun hk => he hk.symm
      rw [hstep, List.lookup_cons, hne]
      rw [List.lookup_cons, hne] at h
      exact ih h

theorem observe_of_lookup_none (store : List (String × TrackedState)) (r : ProductRecord)
    (h : store.lookup r.id = none) :
    observe store r = (ChangeKind.New, (r.id, ⟨r, totalAvailable r == 0⟩) :: store) := by
  unfold observe
  rw [h]

theorem observe_of_lookup_some (store : List (String × TrackedState)) (r : ProductRecord)
    (ts : TrackedState) (h : store.lookup r.id = some ts) :
    observe store r =
      if ts.wasOutOfStock = true ∧ 0 < totalAvailable r
      then (ChangeKind.Restocked, setEntry store r.id ⟨r, false⟩)
      else (ChangeKind.Unchanged, setEntry store r.id ⟨r, totalAvailable r == 0⟩) := by
  unfold observe
  rw [h]

theorem observe_lookup_self (store : List (String × TrackedState)) (r : ProductRecord) :
    ((observe store r).2).lookup r.id = some ⟨r, totalAvailable r == 0⟩ := by
  cases h : store.lookup r.id with
  | none =>
    rw [observe_of_lookup_none store r h, List.lookup_cons]
    simp
  | some ts =>
    have hsome : (store.lookup r.id).isSome = true := by rw [h]; rfl
    rw [observe_of_lookup_some store r ts h]
    by_cases hc : ts.wasOutOfStock = true ∧ 0 < totalAvailable r
    · rw [if_pos hc]
      have hz : (totalAvailable r == 0) = false := by
        simp
        omega
      rw [hz]
      exact lookup_setEntry store r.id _ hsome
    · rw [if_neg hc]
      exact lookup_setEntry store r.id _ hsome

end SpecStore

/-! ## Concrete inputs used by the claim theorems -/

/-- A container element of shein_client carrying no native id attribute. -/
def bareElem : ClientElem :=
  ⟨none, none, some "Basic Tee", some "₹499",
   some ⟨some "//img.example.com/1.jpg", none⟩, some (some "/p-123.html"), false⟩

/-- A container element of shein_client carrying a native product id. -/
def nativeIdElem : ClientElem :=
  ⟨some "4409123", none, some "Basic Tee", some "₹499",
   some ⟨some "//img.example.com/1.jpg", none⟩, some (some "/p-123.html"), false⟩

/-- A minimal parseable container element for bot.py METHOD 1. -/
def capItem : HtmlItem := ⟨some "/p-1.html", none, some "men", some "₹5"⟩

/-- An enabled size element whose stock attribute is the digit string 0. -/
def zeroStockElem : SizeElem := ⟨"M", [], false, none, some "0", none⟩

/-- An enabled size element with stock attribute 3 next to a sold-out one. -/
def demoSizeElems : List SizeElem :=
  [⟨"S", [], false, none, some "3", none⟩,
   ⟨"L", ["sold-out"], false, none, some "4", none⟩]

/-- A fresh bot state and a men product for the change-detection theorems. -/
def botS0 : BotState := ⟨[], [], [], 0⟩

/-- A men product unseen in `botS0`. -/
def stepP0 : StepProduct := ⟨"ab12cd34ef", "men", false⟩

/-- An out-of-stock observation of an id, for the store theorems. -/
def recOut : SpecStore.ProductRecord := ⟨"p1", [("M", 0), ("L", 0)]⟩

/-- An in-stock observation of the same id. -/
def recIn : SpecStore.ProductRecord := ⟨"p1", [("M", 2), ("L", 0)]⟩

/-! ## Claim theorems -/

/-- Claim C1, counterexample: shein_client._extract_product_info applied to
the same element (hence the same canonical URL) on two runs whose draws of
`random.randint` differ returns two records with different ids, so the id is
not a pure function of the canonical URL and is derived from a random value
when no native identifier is present. -/
theorem c1_id_counterexample :
    (_extract_product_info bareElem 1234567).map ClientProduct.id
    ≠ (_extract_product_info bareElem 7654321).map ClientProduct.id := by
  decide

/-- Claim C1, amended: in bot.py the id is a deterministic truncated hash of
the canonical URL, identically in METHOD 1 and METHOD 3 (so re-extracting
the same URL gives the same id there), and shein_client's extraction is
independent of the random draw whenever the element carries a truthy native
id attribute; only the attribute-less fallback of shein_client draws the id
at random. -/
theorem c1_id_theorem :
    (∀ md5hex u, product_id_m1 md5hex u = product_id_m3 md5hex u)
    ∧ (∀ (e : ClientElem) (r r' : Nat),
        (pyOr2 e.dataProductId e.dataGoodsId).isSome = true →
        _extract_product_info e r = _extract_product_info e r') := by
  constructor
  · intro md5hex u
    rfl
  · intro e r r' h
    obtain ⟨s, hs⟩ := Option.isSome_iff_exists.mp h
    unfold _extract_product_info
    rw [hs]

/-- Witness for the C1 theorem at a concrete element with a native id. -/
theorem c1_id_witness :
    (pyOr2 nativeIdElem.dataProductId nativeIdElem.dataGoodsId).isSome = true
    ∧ _extract_product_info nativeIdElem 1111111 = _extract_product_info nativeIdElem 2222222 :=
  ⟨by decide, c1_id_theorem.2 nativeIdElem 1111111 2222222 (by decide)⟩

/-- Claim C2: bot.py METHOD 3 classifies the very same regex match as men or
as women depending only on the draw of `random.random()` at line 273, so
classification is not deterministic and draws on a random source. -/
theorem c2_classifier_random :
    (parse_method3_match (fun u => u) ⟨"/p-1.html", "//i.jpg", "Shein Tee"⟩ (1 / 10)).gender = "men"
    ∧ (parse_method3_match (fun u => u) ⟨"/p-1.html", "//i.jpg", "Shein Tee"⟩ (1 / 2)).gender = "women" := by
  constructor
  · show method3_gender (1 / 10) = "men"
    norm_num [method3_gender]
  · show method3_gender (1 / 2) = "women"
    norm_num [method3_gender]

/-- Claim C3: on extraction failure bot.py returns the fabricated counts 28
men and 129 women alongside zero records, and _parse_sizes on a page with no
recognized size elements fabricates a size mapping from random draws, whose
value varies with the draws. -/
theorem c3_fabricated_data :
    extract_error_fallback = ([], 28, 129)
    ∧ _parse_sizes [] 1 2 2 1 = [("S", 1), ("M", 2), ("L", 2), ("XL", 1)]
    ∧ _parse_sizes [] 2 2 2 1 ≠ _parse_sizes [] 1 2 2 1 := by
  refine ⟨rfl, by decide, by decide⟩

/-- Claim C4 (store modelled from the spec, section 4.4): a tracked id
observed with zero quantity in every size entry and then observed with a
positive quantity is classified Restocked on that observation, and an
identical further observation is classified Unchanged, not Restocked
again. -/
theorem c4_restock_roundtrip (store : List (String × SpecStore.TrackedState))
    (r0 r1 : SpecStore.ProductRecord) (hid : r1.id = r0.id)
    (h0 : ∀ e ∈ r0.sizeAvailability, e.2 = 0)
    (h1 : 0 < SpecStore.totalAvailable r1) :
    (SpecStore.observe (SpecStore.observe store r0).2 r1).1 = SpecStore.ChangeKind.Restocked
    ∧ (SpecStore.observe (SpecStore.observe (SpecStore.observe store r0).2 r1).2 r1).1
      = SpecStore.ChangeKind.Unchanged := by
  have htot0 : SpecStore.totalAvailable r0 = 0 := by
    unfold SpecStore.totalAvailable
    refine List.sum_eq_zero ?_
    intro x hx
    obtain ⟨e, he, rfl⟩ := List.mem_map.mp hx
    exact h0 e he
  have hs1 : ((SpecStore.observe store r0).2).lookup r1.id = some ⟨r0, true⟩ := by
    rw [hid, SpecStore.observe_lookup_self, htot0]
    rfl
  have hobs1 : SpecStore.observe (SpecStore.observe store r0).2 r1
      = (SpecStore.ChangeKind.Restocked,
         SpecStore.setEntry (SpecStore.observe store r0).2 r1.id ⟨r1, false⟩) := by
    rw [SpecStore.observe_of_lookup_some _ _ _ hs1, if_pos ⟨rfl, h1⟩]
  have hsome : (((SpecStore.observe store r0).2).lookup r1.id).isSome = true := by
    rw [hs1]
    rfl
  have hs2 := SpecStore.lookup_setEntry ((SpecStore.observe store r0).2) r1.id ⟨r1, false⟩ hsome
  constructor
  · rw [hobs1]
  · rw [hobs1]
    rw [SpecStore.observe_of_lookup_some _ _ _ hs2, if_neg]
    intro hcon
    exact Bool.false_ne_true hcon.1

/-- Witness for the C4 theorem at a concrete out-of-stock then restocked
record. -/
theorem c4_restock_roundtrip_witness :
    SpecStore.totalAvailable recOut = 0
    ∧ 0 < SpecStore.totalAvailable recIn
    ∧ (SpecStore.observe (SpecStore.observe [] recOut).2 recIn).1
      = SpecStore.ChangeKind.Restocked
    ∧ (SpecStore.observe (SpecStore.observe (SpecStore.observe [] recOut).2 recIn).2 recIn).1
      = SpecStore.ChangeKind.Unchanged := by
  refine ⟨by decide, by decide, ?_⟩
  exact c4_restock_roundtrip [] recOut recIn rfl (by decide) (by decide)


/-- Claim C5, counterexample: a name matched by both keyword sets is
classified men by bot.py's classifier but rejected by
shein_client._is_men_product, whose women-first exclusion drops the
priority category on ambiguity. -/
theorem c5_tiebreak_counterexample :
    client_men_keywords.any (fun k => pyIn k (pyLower "Mens Dress")) = true
    ∧ client_women_keywords.any (fun k => pyIn k (pyLower "Mens Dress")) = true
    ∧ _is_men_product "Mens Dress" = false := by
  decide

/-- Claim C5, amended: in bot.py's classifier any men-keyword match wins
outright, so a tie goes to men; in shein_client._is_men_product any
women-keyword match excludes the product even when men keywords also match,
so the tie goes against the priority category there. -/
theorem c5_tiebreak_theorem :
    (∀ name url, men_keywords.any (fun k => pyIn k (pyLower name)) = true →
      classify_gender name url = "men")
    ∧ (∀ name, client_women_keywords.any (fun k => pyIn k (pyLower name)) = true →
      _is_men_product name = false) := by
  constructor
  · intro name url h
    unfold classify_gender
    simp [h]
  · intro name h
    unfold _is_men_product
    simp [h]

/-- Witness for the C5 theorem at a name matching both keyword sets. -/
theorem c5_tiebreak_witness :
    (men_keywords.any (fun k => pyIn k (pyLower "Mens Dress")) = true
      ∧ classify_gender "Mens Dress" "https://www.shein.in/p-1.html" = "men")
    ∧ (client_women_keywords.any (fun k => pyIn k (pyLower "Mens Dress")) = true
      ∧ _is_men_product "Mens Dress" = false) :=
  ⟨⟨by decide, c5_tiebreak_theorem.1 "Mens Dress" "https://www.shein.in/p-1.html" (by decide)⟩,
   ⟨by decide, c5_tiebreak_theorem.2 "Mens Dress" (by decide)⟩⟩

/-- Claim C6, counterexample: telegram_manager.send_product_alert with an
image present attempts the text delivery first, not the photo; and bot.py's
send_telegram_alert with both deliveries failing raises nothing and
increments nothing, silently dropping the alert. -/
theorem c6_dispatch_counterexample :
    (send_product_alert true true).attempts.head? = some Attempt.text
    ∧ (send_telegram_alert true false false).raised = false
    ∧ (send_telegram_alert true false false).alertsInc = 0 := by
  decide

/-- Claim C6, amended: bot.py's send_telegram_alert does attempt the photo
first when an image is present and falls back to text on photo failure, but
it never propagates a delivery failure to its caller; telegram_manager's
send_product_alert attempts the text first, adds the photo only after text
success, and returns the text result. -/
theorem c6_dispatch_theorem :
    (∀ p t, (send_telegram_alert true p t).attempts.head? = some Attempt.photo)
    ∧ (∀ t, (send_telegram_alert true false t).attempts = [Attempt.photo, Attempt.text])
    ∧ (∀ h p t, (send_telegram_alert h p t).raised = false)
    ∧ (∀ h t, (send_product_alert h t).attempts.head? = some Attempt.text)
    ∧ (∀ h t, (send_product_alert h t).returned = t) := by
  refine ⟨?_, ?_, ?_, ?_, ?_⟩
  · intro p t
    cases p <;> cases t <;> rfl
  · intro t
    cases t <;> rfl
  · intro h p t
    cases h <;> cases p <;> cases t <;> rfl
  · intro h t
    cases h <;> cases t <;> rfl
  · intro h t
    cases h <;> cases t <;> rfl

/-- Claim C7, counterexample: bot.py METHOD 1 has no cap, so a page with 51
parseable container elements yields 51 records, beyond any fixed 30-50
bound. -/
theorem c7_cap_counterexample :
    50 < (extract_method1 (fun u => u) (List.replicate 51 capItem)).length := by
  decide

/-- Claim C7, amended: METHOD 2, METHOD 3 and shein_client's HTML parser
each cap their output at 30 records for every input, while bot.py METHOD 1
emits one record per matched container element with no cap at all. -/
theorem c7_cap_theorem :
    (∀ md5hex items, (extract_method1 md5hex items).length ≤ items.length)
    ∧ (∀ items, (extract_method2 items).length ≤ 30)
    ∧ (∀ md5hex found rands, (extract_method3 md5hex found rands).length ≤ 30)
    ∧ (∀ items rands, (_parse_html_products items rands).length ≤ 30) := by
  refine ⟨?_, ?_, ?_, ?_⟩
  · intro md5hex items
    exact List.length_filterMap_le _ _
  · intro items
    unfold extract_method2
    rw [List.length_map, List.length_take]
    exact min_le_left _ _
  · intro md5hex found rands
    unfold extract_method3
    rw [List.length_map, List.enum_length, List.length_take]
    exact min_le_left _ _
  · intro items rands
    unfold _parse_html_products
    calc ((items.take 30).enum.filterMap _).length
        ≤ (items.take 30).enum.length := List.length_filterMap_le _ _
      _ = (items.take 30).length := List.enum_length
      _ ≤ 30 := by
          rw [List.length_take]
          exact min_le_left _ _

/-- Claim C8: once an observation classifies a product New (which inserts
its id into seen_products), any later observation of a product with the same
id is not classified New again, whatever its gender and whatever the
delivery outcomes. -/
theorem c8_new_idempotent (s : BotState) (p q : StepProduct) (p1 t1 p2 t2 : Bool)
    (hnew : (check_product_step s p p1 t1).2 = true) (hid : q.id = p.id) :
    (check_product_step (check_product_step s p p1 t1).1 q p2 t2).2 = false :=
  check_product_step_after_new s p q p1 t1 p2 t2 hnew hid

/-- Witness for the C8 theorem on a fresh state and a concrete men
product. -/
theorem c8_new_idempotent_witness :
    (check_product_step botS0 stepP0 false false).2 = true
    ∧ (check_product_step (check_product_step botS0 stepP0 false false).1 stepP0 false false).2
      = false :=
  ⟨by decide, c8_new_idempotent botS0 stepP0 stepP0 false false false false (by decide) rfl⟩

/-- Claim C9: for a new men product the id lands in seen_products after the
single alert attempt whatever the delivery outcome (the alert sender never
raises), so a later observation of the same product is not classified New
and the alert is never retried. -/
theorem c9_seen_regardless (s : BotState) (p : StepProduct) (p1 t1 p2 t2 : Bool)
    (hm : p.gender = "men") (hns : s.seen_products.contains p.id = false) :
    (check_product_step s p p1 t1).1.seen_products.contains p.id = true
    ∧ (check_product_step s p p1 t1).2 = true
    ∧ (check_product_step (check_product_step s p p1 t1).1 p p2 t2).2 = false
    ∧ (send_telegram_alert p.hasImage p1 t1).raised = false := by
  have hnew : (check_product_step s p p1 t1).2 = true := by
    unfold check_product_step
    rw [if_pos hm, if_neg (by simpa using hns)]
  refine ⟨?_, hnew, check_product_step_after_new s p p p1 t1 p2 t2 hnew rfl, ?_⟩
  · unfold check_product_step
    rw [if_pos hm, if_neg (by simpa using hns)]
    simp
  · unfold send_telegram_alert
    split
    · split <;> try split
      all_goals rfl
    · split <;> rfl

/-- Witness for the C9 theorem with a failing delivery (both the photo and
the text attempt fail). -/
theorem c9_seen_regardless_witness :
    stepP0.gender = "men"
    ∧ botS0.seen_products.contains stepP0.id = false
    ∧ ((check_product_step botS0 stepP0 false false).1.seen_products.contains stepP0.id = true
      ∧ (check_product_step botS0 stepP0 false false).2 = true
      ∧ (check_product_step (check_product_step botS0 stepP0 false false).1 stepP0 false false).2
        = false
      ∧ (send_telegram_alert stepP0.hasImage false false).raised = false) :=
  ⟨rfl, by decide, c9_seen_regardless botS0 stepP0 false false false false rfl (by decide)⟩

/-- Claim C10, counterexample: an enabled size element whose stock attribute
is the digit string 0 is recorded in the size mapping with quantity 0, so a
zero-quantity entry can appear in a parsed record. -/
theorem c10_zero_quantity_counterexample :
    _parse_sizes [zeroStockElem] 1 1 1 1 = [("M", 0)] := by
  decide

/-- Claim C10, amended: disabled, sold-out or out-of-stock size elements
contribute no entry at all, and every quantity in the mapping is at least 1
provided every enabled element's stock attribute is absent, non-numeric or
at least 1 (and the fallback draws are at least 1); only an enabled element
whose stock attribute is a digit string of value 0 puts a zero-quantity
entry in the mapping. -/
theorem c10_quantity_theorem (elems : List SizeElem) (r1 r2 r3 r4 : Nat)
    (hr1 : 1 ≤ r1) (hr2 : 1 ≤ r2) (hr3 : 1 ≤ r3) (hr4 : 1 ≤ r4)
    (h : ∀ e ∈ elems, size_is_disabled e = false → 1 ≤ size_quantity e) :
    (∀ p ∈ _parse_sizes elems r1 r2 r3 r4, 1 ≤ p.2)
    ∧ (∀ acc e, size_is_disabled e = true → parse_sizes_step acc e = acc) := by
  constructor
  · intro p hp
    simp only [_parse_sizes] at hp
    split at hp
    · simp only [List.mem_cons, List.not_mem_nil, or_false] at hp
      rcases hp with rfl | rfl | rfl | rfl
      · exact hr1
      · exact hr2
      · exact hr3
      · exact hr4
    · exact parse_sizes_fold_values elems [] h (by simp) p hp
  · intro acc e hd
    exact parse_sizes_step_disabled acc e hd

/-- Witness for the C10 theorem on concrete size elements: the enabled entry
keeps its positive quantity and the sold-out element is dropped. -/
theorem c10_quantity_witness :
    ("S", 3) ∈ _parse_sizes demoSizeElems 1 1 1 1
    ∧ 1 ≤ (("S", 3) : String × Nat).2 :=
  ⟨by decide,
   (c10_quantity_theorem demoSizeElems 1 1 1 1 (by decide) (by decide) (by decide) (by decide)
     (by decide)).1 ("S", 3) (by decide)⟩
